import Mathlib

/-!
Shallow embedding of the SmartlightApp light-control core: the protocol unit
conversions (`app/protocols/utils.py`, `app/protocols/hue_protocol.py`,
`app/protocols/lifx_protocol.py`), the light manager (`app/light_manager.py`)
and the schedule engine (`app/scheduler.py`).

Conventions of the embedding:

* A Python dict with a fixed key vocabulary becomes a structure of `Option`
  fields (`none` = key absent); `dict.update` is a field-wise right-biased
  merge (keys of the argument win), exactly like the source's shallow merges.
* Python ints are `ℤ`; float arithmetic is embedded as exact `ℚ` arithmetic.
  `int(x)` truncates toward zero, embedded as `Int.tdiv` of the exact
  quotient.  In every conversion below the exact rational value of the float
  expression is never closer to an integer than `1/2^20` unless it is exactly
  an integer (denominators are 127, 50, 24, 13107, or the Kelvin/mirek value
  itself, all below `2^20`), while the accumulated double rounding error is
  below `2^-40` times the magnitude, so truncating the exact rational agrees
  with the source's `int(...)` of the float.
* The two transcendental float operations (`x ** 2.4` and its inverse power in
  the gamma helpers of `utils.py`) are uninterpreted parameters (`RealFns`);
  no claim depends on their numeric output, only on data flow.
* Network and persistence calls are oracles passed as explicit arguments; the
  source catches exceptions at each operation boundary and converts them to a
  failure return value, so an oracle answering `false` covers both a failure
  response and a raised-and-caught transport error.
-/

set_option maxRecDepth 2000

/-- Truncation toward zero of an exact rational, the embedding of Python's
`int(...)` applied to a (non-integer-valued) numeric expression. -/
def pyInt (q : ℚ) : ℤ := Int.tdiv q.num q.den

/-- Balanced bounded check: with enough fuel `d`, `checkRange f d lo n = true`
certifies `f (lo + i)` for every `i < n`.  The interval is split in halves so
that kernel reduction depth stays logarithmic in `n`. -/
def checkRange (f : ℕ → Bool) : ℕ → ℕ → ℕ → Bool
  | 0, lo, n => (List.range n).all (fun i => f (lo + i))
  | d+1, lo, n =>
    if n ≤ 1 then (List.range n).all (fun i => f (lo + i))
    else checkRange f d lo (n / 2) && checkRange f d (lo + n / 2) (n - n / 2)

theorem checkRange_sound (f : ℕ → Bool) :
    ∀ (d lo n : ℕ), checkRange f d lo n = true → ∀ i, i < n → f (lo + i) = true := by
  intro d
  induction d with
  | zero =>
    intro lo n h i hi
    simp only [checkRange, List.all_eq_true] at h
    exact h i (List.mem_range.mpr hi)
  | succ d ih =>
    intro lo n h i hi
    simp only [checkRange] at h
    by_cases hn : n ≤ 1
    · simp only [hn, if_true, List.all_eq_true] at h
      exact h i (List.mem_range.mpr hi)
    · simp only [hn, if_false, Bool.and_eq_true] at h
      by_cases hlt : i < n / 2
      · exact ih lo (n / 2) h.1 i hlt
      · have h2 := ih (lo + n / 2) (n - n / 2) h.2 (i - n / 2) (by omega)
        have heq : lo + n / 2 + (i - n / 2) = lo + i := by omega
        rwa [heq] at h2

/-- String-keyed association list standing for a Python dict; first match wins
(keys are unique in all states the source builds). -/
def alookup {α : Type} (l : List (String × α)) (k : String) : Option α :=
  (l.find? (fun p => p.1 = k)).map (fun p => p.2)

/-- Assignment `d[k] = v` for a key already present: replaces the stored value. -/
def aset {α : Type} : List (String × α) → String → α → List (String × α)
  | [], _, _ => []
  | p :: t, k, v => if p.1 = k then (k, v) :: aset t k v else p :: aset t k v

/-- Assignment `d[k] = v` that may also create the key. -/
def aput {α : Type} (l : List (String × α)) (k : String) (v : α) : List (String × α) :=
  if (alookup l k).isSome then aset l k v else l ++ [(k, v)]

/-- Deletion `del d[k]`. -/
def adel {α : Type} (l : List (String × α)) (k : String) : List (String × α) :=
  l.filter (fun p => p.1 ≠ k)

theorem alookup_none_iff {α : Type} (l : List (String × α)) (k : String) :
    alookup l k = none ↔ ∀ p ∈ l, p.1 ≠ k := by
  unfold alookup
  rw [Option.map_eq_none', List.find?_eq_none]
  simp

theorem alookup_aset_isNone {α : Type} (l : List (String × α)) (k k' : String) (v : α)
    (h : alookup l k' = none) : alookup (aset l k v) k' = none := by
  rw [alookup_none_iff] at h ⊢
  intro p hp
  induction l with
  | nil => simp [aset] at hp
  | cons q t ih =>
    simp only [aset] at hp
    by_cases hk : q.1 = k
    · rw [if_pos hk] at hp
      rcases List.mem_cons.mp hp with h1 | h2
      · subst h1
        exact hk ▸ h q (List.mem_cons_self q t)
      · exact ih (fun r hr => h r (List.mem_cons_of_mem q hr)) h2
    · rw [if_neg hk] at hp
      rcases List.mem_cons.mp hp with h1 | h2
      · subst h1
        exact h p (List.mem_cons_self p t)
      · exact ih (fun r hr => h r (List.mem_cons_of_mem q hr)) h2

/-- Right-biased merge of one optional field, the per-key effect of
`dict.update`. -/
def updVal {α : Type} : Option α → Option α → Option α
  | some v, _ => some v
  | none, old => old

/-- Union of the state keys handled by the source (canonical names used by the
light manager and LIFX adapter, plus the Hue-native names `bri`, `ct`, `sat`,
`xy` read and written by the Hue adapter).  A value models a Python dict
restricted to this vocabulary; `none` means the key is absent.  The Python key
`on` is embedded as the field `on_` (`on` is reserved notation here). -/
structure StateDict where
  on_ : Option Bool := none
  reachable : Option Bool := none
  brightness : Option ℤ := none
  color_temp : Option ℤ := none
  hue : Option ℤ := none
  saturation : Option ℤ := none
  rgb_color : Option (ℤ × ℤ × ℤ) := none
  bri : Option ℤ := none
  ct : Option ℤ := none
  sat : Option ℤ := none
  xy : Option (ℚ × ℚ) := none
deriving DecidableEq

/-- Shallow merge `old.update(new)` over the state vocabulary: keys present in
`new` overwrite, all other keys of `old` survive. -/
def dict_update (old new : StateDict) : StateDict where
  on_ := updVal new.on_ old.on_
  reachable := updVal new.reachable old.reachable
  brightness := updVal new.brightness old.brightness
  color_temp := updVal new.color_temp old.color_temp
  hue := updVal new.hue old.hue
  saturation := updVal new.saturation old.saturation
  rgb_color := updVal new.rgb_color old.rgb_color
  bri := updVal new.bri old.bri
  ct := updVal new.ct old.ct
  sat := updVal new.sat old.sat
  xy := updVal new.xy old.xy

/-- Uninterpreted embeddings of the two transcendental float operations in
`utils.py`: `x ** 2.4` (in `_gamma_correct`) and `x ** (1/2.4)` (in
`_reverse_gamma`).  Claims never depend on their values. -/
structure RealFns where
  pow24 : ℚ → ℚ
  powInv24 : ℚ → ℚ

/-- From `utils._gamma_correct`. -/
def gamma_correct (F : RealFns) (value : ℚ) : ℚ :=
  if value ≤ 0.04045 then value / 12.92
  else F.pow24 ((value + 0.055) / 1.055)

/-- From `utils._reverse_gamma`. -/
def reverse_gamma (F : RealFns) (value : ℚ) : ℚ :=
  if value ≤ 0.0031308 then value * 12.92
  else 1.055 * F.powInv24 value - 0.055

/-- From `utils.rgb_to_xy`. -/
def rgb_to_xy (F : RealFns) (red green blue : ℤ) : ℚ × ℚ :=
  let r := gamma_correct F ((red : ℚ) / 255)
  let g := gamma_correct F ((green : ℚ) / 255)
  let b := gamma_correct F ((blue : ℚ) / 255)
  let X := r * 0.649926 + g * 0.103455 + b * 0.197109
  let Y := r * 0.234327 + g * 0.743075 + b * 0.022598
  let Z := r * 0 + g * 0.053077 + b * 1.035763
  let sum_XYZ := X + Y + Z
  if sum_XYZ = 0 then (0, 0)
  else (X / sum_XYZ, Y / sum_XYZ)

/-- From `utils.xy_to_rgb` (default argument `brightness=1.0`). -/
def xy_to_rgb (F : RealFns) (x y : ℚ) (brightness : ℚ := 1) : ℤ × ℤ × ℤ :=
  if y = 0 then (0, 0, 0)
  else
    let Y := brightness
    let X := (Y / y) * x
    let Z := (Y / y) * (1 - x - y)
    let r := X * 1.656492 - Y * 0.354851 - Z * 0.255038
    let g := -X * 0.707196 + Y * 1.655397 + Z * 0.036152
    let b := X * 0.051713 - Y * 0.121364 + Z * 1.011530
    let r := reverse_gamma F r
    let g := reverse_gamma F g
    let b := reverse_gamma F b
    (max 0 (min 255 (pyInt (r * 255))),
     max 0 (min 255 (pyInt (g * 255))),
     max 0 (min 255 (pyInt (b * 255))))

/-- Python's `colorsys.rgb_to_hsv` on exact rationals (the function is entirely
rational arithmetic; `h` is returned in `[0,1)` via `% 1.0`, embedded as
`Int.fract`). -/
def colorsys_rgb_to_hsv (r g b : ℚ) : ℚ × ℚ × ℚ :=
  let maxc := max r (max g b)
  let minc := min r (min g b)
  let v := maxc
  if minc = maxc then (0, 0, v)
  else
    let s := (maxc - minc) / maxc
    let rc := (maxc - r) / (maxc - minc)
    let gc := (maxc - g) / (maxc - minc)
    let bc := (maxc - b) / (maxc - minc)
    let h := if r = maxc then bc - gc
             else if g = maxc then 2 + rc - bc
             else 4 + gc - rc
    (Int.fract (h / 6), s, v)

/-- Python's `colorsys.hsv_to_rgb` on exact rationals; `int(h*6.0)` is
truncation and `i % 6` is Python's nonnegative-result modulo (`Int.emod`). -/
def colorsys_hsv_to_rgb (h s v : ℚ) : ℚ × ℚ × ℚ :=
  if s = 0 then (v, v, v)
  else
    let i := pyInt (h * 6)
    let f := h * 6 - (i : ℚ)
    let p := v * (1 - s)
    let q := v * (1 - s * f)
    let t := v * (1 - s * (1 - f))
    let i := Int.emod i 6
    if i = 0 then (v, t, p)
    else if i = 1 then (q, v, p)
    else if i = 2 then (p, v, t)
    else if i = 3 then (p, q, v)
    else if i = 4 then (t, p, q)
    else (v, p, q)

/-- From `utils.rgb_to_hsv`: normalizes to `[0,1]`, converts, and scales hue to
degrees. -/
def rgb_to_hsv (red green blue : ℤ) : ℚ × ℚ × ℚ :=
  let hsv := colorsys_rgb_to_hsv ((red : ℚ) / 255) ((green : ℚ) / 255) ((blue : ℚ) / 255)
  (hsv.1 * 360, hsv.2.1, hsv.2.2)

/-- From `utils.hsv_to_rgb`: hue in degrees is normalized to `[0,1]`, converted,
and each channel is scaled to `0..255`, truncated and clamped. -/
def hsv_to_rgb (hue saturation value : ℚ) : ℤ × ℤ × ℤ :=
  let rgb := colorsys_hsv_to_rgb (hue / 360) saturation value
  (max 0 (min 255 (pyInt (rgb.1 * 255))),
   max 0 (min 255 (pyInt (rgb.2.1 * 255))),
   max 0 (min 255 (pyInt (rgb.2.2 * 255))))

/-- From `HueProtocol.normalize_state`: maps a Hue-native state dict to the
canonical vocabulary, key by key.  `bri` (0-254) becomes percent via
`int((bri / 254) * 100)`; `ct` (mirek) becomes Kelvin via `int(1000000 / mirek)`
guarded by `mirek > 0`; `xy` becomes `rgb_color` via `xy_to_rgb`; the pair
`hue` and `sat` (both keys required) scales to degrees and percent.  Keys
absent from the input are absent from the output. -/
def Hue.normalize_state (F : RealFns) (state : StateDict) : StateDict :=
  let n : StateDict := {}
  let n := match state.on_ with
    | some v => { n with on_ := some v }
    | none => n
  let n := match state.reachable with
    | some v => { n with reachable := some v }
    | none => n
  let n := match state.bri with
    | some bri => { n with brightness := some (Int.tdiv (bri * 100) 254) }
    | none => n
  let n := match state.ct with
    | some mirek =>
      if 0 < mirek then { n with color_temp := some (Int.tdiv 1000000 mirek) } else n
    | none => n
  let n := match state.xy with
    | some p => { n with rgb_color := some (xy_to_rgb F p.1 p.2) }
    | none => n
  let n := match state.hue, state.sat with
    | some hue, some sat =>
      { n with hue := some (Int.tdiv (hue * 360) 65535),
               saturation := some (Int.tdiv (sat * 100) 254) }
    | _, _ => n
  n

/-- From `HueProtocol._convert_to_hue_state`: maps a canonical patch to the
Hue-native vocabulary.  `brightness` percent becomes `bri` via
`int((bri / 100) * 254)`; `color_temp` Kelvin becomes `ct` via
`int(1000000 / kelvin)` guarded by `kelvin > 0`; `rgb_color` becomes `xy`;
the pair `hue`/`saturation` (both required) scales to Hue's 0-65535 / 0-254. -/
def Hue.convert_to_hue_state (F : RealFns) (state : StateDict) : StateDict :=
  let h : StateDict := {}
  let h := match state.on_ with
    | some v => { h with on_ := some v }
    | none => h
  let h := match state.brightness with
    | some bri => { h with bri := some (Int.tdiv (bri * 254) 100) }
    | none => h
  let h := match state.color_temp with
    | some kelvin =>
      if 0 < kelvin then { h with ct := some (Int.tdiv 1000000 kelvin) } else h
    | none => h
  let h := match state.rgb_color with
    | some rgb => { h with xy := some (rgb_to_xy F rgb.1 rgb.2.1 rgb.2.2) }
    | none => h
  let h := match state.hue, state.saturation with
    | some hue, some sat =>
      { h with hue := some (Int.tdiv (hue * 65535) 360),
               sat := some (Int.tdiv (sat * 254) 100) }
    | _, _ => h
  h

/-- From `LifxProtocol.normalize_state`: canonical keys pass through unchanged
(`int(...)` is the identity on the embedded integers).  If `rgb_color` is
present while neither `hue` nor `saturation` has been produced, the missing
HSV representation is derived via `rgb_to_hsv` (also deriving `brightness`
when absent); if `hue` and `saturation` were produced and `rgb_color` is NOT
a key of the input, `rgb_color` is derived via `hsv_to_rgb`.  Note the source
has no pass-through branch for `rgb_color` itself. -/
def Lifx.normalize_state (state : StateDict) : StateDict :=
  let n : StateDict := {}
  let n := match state.on_ with
    | some v => { n with on_ := some v }
    | none => n
  let n := match state.brightness with
    | some b => { n with brightness := some b }
    | none => n
  let n := match state.color_temp with
    | some c => { n with color_temp := some c }
    | none => n
  let n := match state.hue with
    | some h => { n with hue := some h }
    | none => n
  let n := match state.saturation with
    | some s => { n with saturation := some s }
    | none => n
  let n := match state.rgb_color with
    | some rgb =>
      if n.hue = none ∧ n.saturation = none then
        let hsv := rgb_to_hsv rgb.1 rgb.2.1 rgb.2.2
        let n := { n with hue := some (pyInt hsv.1),
                          saturation := some (pyInt (hsv.2.1 * 100)) }
        if n.brightness = none then { n with brightness := some (pyInt (hsv.2.2 * 100)) }
        else n
      else n
    | none => n
  let n := match n.hue, n.saturation, state.rgb_color with
    | some h, some s, none =>
      let v : ℚ := ((n.brightness.getD 100 : ℤ) : ℚ) / 100
      { n with rgb_color := some (hsv_to_rgb (h : ℚ) ((s : ℚ) / 100) v) }
    | _, _, _ => n
  n

/-- A device record: a value of `hue_lights` / `lifx_lights` in the light
manager, or of the LIFX protocol's own device cache.  Only keys the embedded
operations touch are modeled: addressing keys, the top-level canonical state
keys the manager merges into the record (`st`), and the nested `state` dict
(`nested_state`) that the LIFX protocol cache merges into. -/
structure LightRec where
  bridge_id : Option String := none
  ip : Option String := none
  mac : Option String := none
  st : StateDict := {}
  nested_state : StateDict := {}
deriving DecidableEq

/-- A Hue bridge record (`hue_bridges` value); only the keys read by
`set_light_state` are modeled. -/
structure BridgeRec where
  ip : Option String := none
  username : Option String := none
deriving DecidableEq

/-- From `LifxProtocol.set_light_state` (the source's simulated transport):
fails if the light record has no `ip`; otherwise merges the normalized patch
into the protocol's own device cache (keyed by `mac`, into the record's
nested `state` dict) when the light's `mac` is cached, and reports success. -/
def Lifx.set_light_state (devices : List (String × LightRec)) (light_info : LightRec)
    (state : StateDict) : Bool × List (String × LightRec) :=
  match light_info.ip with
  | none => (false, devices)
  | some _ =>
    let devices := match light_info.mac with
      | some mac =>
        match alookup devices mac with
        | some dev =>
          aset devices mac
            { dev with nested_state := dict_update dev.nested_state (Lifx.normalize_state state) }
        | none => devices
      | none => devices
    (true, devices)

/-- The mutable device registries of `LightManager` (`hue_bridges`,
`hue_lights`, `lifx_lights`) together with the LIFX protocol's internal device
cache (`LifxProtocol.devices`, keyed by MAC). -/
structure LMState where
  hue_bridges : List (String × BridgeRec) := []
  hue_lights : List (String × LightRec) := []
  lifx_lights : List (String × LightRec) := []
  lifx_devices : List (String × LightRec) := []
deriving DecidableEq

/-- Environment of external effects: `hue_set_ok ip username light_id payload`
is the outcome of the HTTP PUT in `HueProtocol.set_light_state` (false covers
error responses, Hue API error items and caught transport exceptions), and `F`
interprets the transcendental float operations. -/
structure Env where
  hue_set_ok : String → String → String → StateDict → Bool
  F : RealFns

/-- From `HueProtocol.set_light_state`: converts the patch with
`_convert_to_hue_state` and sends it; the network outcome is the oracle's
answer on the converted payload. -/
def Hue.set_light_state (env : Env) (bridge_ip username light_id : String)
    (state : StateDict) : Bool :=
  env.hue_set_ok bridge_ip username light_id (Hue.convert_to_hue_state env.F state)

/-- From `LightManager.get_light`. -/
def get_light (lm : LMState) (protocol light_id : String) : Option LightRec :=
  if protocol = "hue" then alookup lm.hue_lights light_id
  else if protocol = "lifx" then alookup lm.lifx_lights light_id
  else none

/-- The characters of a string up to the first underscore, and the remainder
after it when one exists. -/
def split_first_underscore : List Char → List Char × Option (List Char)
  | [] => ([], none)
  | c :: t =>
    if c = '_' then ([], some t)
    else
      let r := split_first_underscore t
      (c :: r.1, r.2)

/-- Python's `s.split('_')[1]`: the text between the first underscore and the
following underscore (or the end); `none` embeds the IndexError raised when
the string has no underscore. -/
def py_split_underscore_second (s : String) : Option String :=
  match split_first_underscore s.data with
  | (_, none) => none
  | (_, some rest) => some (String.mk (split_first_underscore rest).1)

/-- From `LightManager.set_light_state`.  Hue path: resolve the light, its
`bridge_id`, the bridge and its `ip`/`username`; extract the bridge-local id
as `light_id.split('_')[1]` (a missing second component raises IndexError in
the source, caught by the surrounding handler, hence `(false, lm)`); send; on
success merge `Hue.normalize_state` of the (canonical!) patch into the stored
record.  LIFX path: resolve the light, call the protocol transport, on success
merge `Lifx.normalize_state` of the patch.  Unknown protocols fail.  Every
failure path leaves the manager state unchanged (the LIFX protocol cache is
updated by the transport itself exactly as in the source). -/
def set_light_state (env : Env) (lm : LMState) (protocol light_id : String)
    (state : StateDict) : Bool × LMState :=
  if protocol = "hue" then
    match alookup lm.hue_lights light_id with
    | none => (false, lm)
    | some light =>
      match light.bridge_id with
      | none => (false, lm)
      | some bridge_id =>
        match alookup lm.hue_bridges bridge_id with
        | none => (false, lm)
        | some bridge =>
          match bridge.ip, bridge.username with
          | some ip, some username =>
            match py_split_underscore_second light_id with
            | none => (false, lm)
            | some actual_light_id =>
              let success := Hue.set_light_state env ip username actual_light_id state
              if success then
                let light' := { light with st := dict_update light.st (Hue.normalize_state env.F state) }
                (true, { lm with hue_lights := aset lm.hue_lights light_id light' })
              else (false, lm)
          | _, _ => (false, lm)
  else if protocol = "lifx" then
    match alookup lm.lifx_lights light_id with
    | none => (false, lm)
    | some light =>
      let r := Lifx.set_light_state lm.lifx_devices light state
      let lm' := { lm with lifx_devices := r.2 }
      if r.1 then
        let light' := { light with st := dict_update light.st (Lifx.normalize_state state) }
        (true, { lm' with lifx_lights := aset lm'.lifx_lights light_id light' })
      else (false, lm')
  else (false, lm)

/-- A light group as stored in the configuration (`config['groups']` entry):
`id`, `name` and the member list of `(protocol, light_id)` pairs; the `lights`
key may in principle be absent, which `set_group_state` treats as failure. -/
structure GroupRec where
  id : String
  name : String := ""
  lights : Option (List (String × String)) := none
deriving DecidableEq

/-- From `LightManager.set_group_state`: resolves the group in the configured
group list, fails if it is missing or has no `lights` key, then fans the patch
out to every member via `set_light_state`, threading the manager state and
conjoining per-member success into the aggregate result. -/
def set_group_state (env : Env) (groups : List GroupRec) (lm : LMState)
    (group_id : String) (state : StateDict) : Bool × LMState :=
  match groups.find? (fun g => g.id = group_id) with
  | none => (false, lm)
  | some g =>
    match g.lights with
    | none => (false, lm)
    | some members =>
      members.foldl
        (fun acc m =>
          let r := set_light_state env acc.2 m.1 m.2 state
          (acc.1 && r.1, r.2))
        (true, lm)

/-- The `days` value of a schedule: either an explicit weekday list (0 =
Monday .. 6 = Sunday) or one of the symbolic strings handled by
`_day_matches` (`weekdays`, `weekend`, `all`; anything else never matches). -/
inductive DaysSpec where
  | dlist (l : List ℤ)
  | dstr (s : String)
deriving DecidableEq

/-- A schedule action dict (`type`, `target_type`, `target_id`, `state`);
carried opaquely by the claims. -/
structure SchedAction where
  type : String := ""
  target_type : String := ""
  target_id : String := ""
  state : StateDict := {}
deriving DecidableEq

/-- A schedule dict.  `time` is the parsed `HH:MM` pair (the source stores the
string and parses it with `split(':')` at each use); `date` is the parsed ISO
date `(year, month, day)`; `last_run` is the instant stored by
`_trigger_schedule` (the source round-trips it through `isoformat`), kept as
an absolute timestamp in seconds so that `now - last_run` is datetime
subtraction.  Absent keys are `none`; `enabled` may genuinely be absent, in
which case the source reads it as `schedule.get('enabled', True)`. -/
structure Schedule where
  id : String
  name : String := ""
  time : Option (ℤ × ℤ) := none
  days : Option DaysSpec := none
  date : Option (ℤ × ℤ × ℤ) := none
  enabled : Option Bool := none
  last_run : Option ℤ := none
  actions : List SchedAction := []
deriving DecidableEq

/-- A `datetime.now()` observation: the absolute timestamp `ts` in seconds
(what datetime subtraction measures) together with the broken-down fields the
scheduler reads.  `weekday` is Python's `weekday()`, 0 = Monday.  Sub-second
precision is irrelevant to every claim and is dropped.  Concrete instants used
below are calendar-coherent. -/
structure PyDateTime where
  ts : ℤ
  year : ℤ
  month : ℤ
  day : ℤ
  hour : ℤ
  minute : ℤ
  second : ℤ
  weekday : ℤ
deriving DecidableEq

/-- From `SchedulerService._time_matches`: false when the `time` key is
missing, otherwise exact hour and minute equality (seconds ignored). -/
def _time_matches (schedule : Schedule) (now : PyDateTime) : Bool :=
  match schedule.time with
  | none => false
  | some t => now.hour = t.1 && now.minute = t.2

/-- From `SchedulerService._day_matches` (only called when the `days` key is
present): list membership, or the symbolic ranges `weekdays` (Mon-Fri),
`weekend` (Sat-Sun), `all`; any other string never matches. -/
def _day_matches (days : DaysSpec) (now : PyDateTime) : Bool :=
  match days with
  | .dlist l => l.contains now.weekday
  | .dstr s =>
    if s = "weekdays" then 0 ≤ now.weekday && now.weekday ≤ 4
    else if s = "weekend" then 5 ≤ now.weekday
    else s = "all"

/-- From `SchedulerService._date_matches`: exact year/month/day equality with
the schedule's one-shot date. -/
def _date_matches (date : ℤ × ℤ × ℤ) (now : PyDateTime) : Bool :=
  now.year = date.1 && now.month = date.2.1 && now.day = date.2.2

/-- From `SchedulerService._should_trigger_schedule`: skip when disabled
(missing `enabled` defaults to true), require the minute-exact time match,
then the day constraint when the `days` key is present, then the date
constraint when the `date` key is present, and finally the debounce: a
`last_run` less than 60 seconds before `now` suppresses the trigger. -/
def _should_trigger_schedule (schedule : Schedule) (now : PyDateTime) : Bool :=
  if !(schedule.enabled.getD true) then false
  else if !(_time_matches schedule now) then false
  else if (match schedule.days with
           | some d => !(_day_matches d now)
           | none => false) then false
  else if (match schedule.date with
           | some d => !(_date_matches d now)
           | none => false) then false
  else
    match schedule.last_run with
    | some last => !(now.ts - last < 60)
    | none => true

/-- From the `last_run` update in `SchedulerService._trigger_schedule`
(`schedule['last_run'] = datetime.now().isoformat()`); action execution and
the persistence call do not touch the evaluated fields. -/
def _trigger_set_last_run (schedule : Schedule) (now : PyDateTime) : Schedule :=
  { schedule with last_run := some now.ts }

/-- From `SchedulerService._should_trigger_soon`: disabled (or `time`-less)
schedules never qualify; otherwise the distance from `now` to today's
occurrence of the scheduled time (`now.replace(hour, minute, second=0)` minus
`now`, in seconds) must lie in `[0, 60)`. -/
def _should_trigger_soon (schedule : Schedule) (now : PyDateTime) : Bool :=
  if !(schedule.enabled.getD true) then false
  else
    match schedule.time with
    | none => false
    | some t =>
      let diff := (t.1 - now.hour) * 3600 + (t.2 - now.minute) * 60 - now.second
      decide (0 ≤ diff) && decide (diff < 60)

/-- Persistence oracle standing for the `ConfigManager` calls the scheduler
makes: the outcome of `add_schedule` (used by create, update and trigger) and
of `remove_schedule`. -/
structure ConfigPort where
  add_schedule_ok : Schedule → Bool
  remove_schedule_ok : String → Bool

/-- The schedule-dict construction inside `SchedulerService.create_schedule`
(`schedule_info = {...}` plus the two truthiness-guarded optional keys).
Python truthiness: an empty weekday list and an empty string are falsy, so
such `days` arguments are dropped (`days_truthy`); a supplied `date` is a
nonempty ISO string, always truthy. -/
def days_truthy : DaysSpec → Bool
  | .dlist l => !l.isEmpty
  | .dstr s => !(s = "")

/-- The schedule-dict construction body of `create_schedule` continued. -/
def create_schedule_info (schedule_id name : String) (time : ℤ × ℤ)
    (actions : List SchedAction) (days : Option DaysSpec) (date : Option (ℤ × ℤ × ℤ))
    (enabled : Bool) : Schedule :=
  let base : Schedule :=
    { id := schedule_id, name := name, time := some time,
      actions := actions, enabled := some enabled }
  let base := match days with
    | some d => if days_truthy d then { base with days := some d } else base
    | none => base
  match date with
  | some d => { base with date := some d }
  | none => base

/-- From `SchedulerService.create_schedule`: build the schedule dict, attempt
persistence, and only on success insert it into the in-memory cache and return
the new id. -/
def create_schedule (cfg : ConfigPort) (cache : List (String × Schedule))
    (schedule_id name : String) (time : ℤ × ℤ) (actions : List SchedAction)
    (days : Option DaysSpec) (date : Option (ℤ × ℤ × ℤ)) (enabled : Bool) :
    Option String × List (String × Schedule) :=
  let info := create_schedule_info schedule_id name time actions days date enabled
  if cfg.add_schedule_ok info then (some schedule_id, aput cache schedule_id info)
  else (none, cache)

/-- The `**kwargs` of `update_schedule`: each `some` field is a key present in
the keyword arguments (`dict.update` overwrites it; absent keys are
untouched). -/
structure SchedulePatch where
  name : Option String := none
  time : Option (ℤ × ℤ) := none
  days : Option DaysSpec := none
  date : Option (ℤ × ℤ × ℤ) := none
  enabled : Option Bool := none
  actions : Option (List SchedAction) := none
deriving DecidableEq

/-- Application of `schedules[schedule_id].update(kwargs)`: keyword arguments
overwrite the corresponding keys, everything else survives. -/
def apply_schedule_patch (s : Schedule) (p : SchedulePatch) : Schedule where
  id := s.id
  name := p.name.getD s.name
  time := match p.time with | some t => some t | none => s.time
  days := match p.days with | some d => some d | none => s.days
  date := match p.date with | some d => some d | none => s.date
  enabled := match p.enabled with | some e => some e | none => s.enabled
  last_run := s.last_run
  actions := p.actions.getD s.actions

/-- From `SchedulerService.update_schedule`: unknown ids fail; otherwise the
cached dict is updated IN PLACE with the keyword arguments and only then is
persistence attempted — the source returns `False` on a failed save but the
cache keeps the already-applied update. -/
def update_schedule (cfg : ConfigPort) (cache : List (String × Schedule))
    (schedule_id : String) (p : SchedulePatch) : Bool × List (String × Schedule) :=
  match alookup cache schedule_id with
  | none => (false, cache)
  | some s =>
    let s' := apply_schedule_patch s p
    let cache' := aset cache schedule_id s'
    if cfg.add_schedule_ok s' then (true, cache') else (false, cache')

/-- From `SchedulerService.delete_schedule`: unknown ids fail; the cache entry
is removed only after `remove_schedule` succeeded. -/
def delete_schedule (cfg : ConfigPort) (cache : List (String × Schedule))
    (schedule_id : String) : Bool × List (String × Schedule) :=
  match alookup cache schedule_id with
  | none => (false, cache)
  | some _ =>
    if cfg.remove_schedule_ok schedule_id then (true, adel cache schedule_id)
    else (false, cache)

/-- From `SchedulerService.enable_schedule`: delegates to `update_schedule`
with the single keyword argument `enabled`. -/
def enable_schedule (cfg : ConfigPort) (cache : List (String × Schedule))
    (schedule_id : String) (enabled : Bool) : Bool × List (String × Schedule) :=
  update_schedule cfg cache schedule_id { enabled := some enabled }

theorem alookup_aset_self {α : Type} (l : List (String × α)) (k : String) (v : α)
    (h : (alookup l k).isSome = true) : alookup (aset l k v) k = some v := by
  induction l with
  | nil => simp [alookup] at h
  | cons p t ih =>
    unfold aset
    by_cases hk : p.1 = k
    · rw [if_pos hk]
      unfold alookup
      rw [List.find?_cons_of_pos _ (by simp)]
      rfl
    · rw [if_neg hk]
      unfold alookup at h ⊢
      rw [List.find?_cons_of_neg _ (by simp [hk])] at h ⊢
      exact ih h

theorem set_light_state_unknown (env : Env) (lm : LMState) (protocol light_id : String)
    (state : StateDict) (h : get_light lm protocol light_id = none) :
    set_light_state env lm protocol light_id state = (false, lm) := by
  unfold get_light at h
  unfold set_light_state
  by_cases hp : protocol = "hue"
  · rw [if_pos hp] at h ⊢
    rw [h]
  · rw [if_neg hp] at h ⊢
    by_cases hq : protocol = "lifx"
    · rw [if_pos hq] at h ⊢
      rw [h]
    · rw [if_neg hq]

theorem set_light_state_snd_fields (env : Env) (lm : LMState) (protocol light_id : String)
    (state : StateDict) :
    ((set_light_state env lm protocol light_id state).2.hue_lights = lm.hue_lights ∨
      ∃ v, (set_light_state env lm protocol light_id state).2.hue_lights
        = aset lm.hue_lights light_id v) ∧
    ((set_light_state env lm protocol light_id state).2.lifx_lights = lm.lifx_lights ∨
      ∃ v, (set_light_state env lm protocol light_id state).2.lifx_lights
        = aset lm.lifx_lights light_id v) := by
  unfold set_light_state
  dsimp only
  repeat' split
  all_goals refine ⟨?_, ?_⟩ <;> first | exact Or.inl rfl | exact Or.inr ⟨_, rfl⟩

theorem get_light_none_preserved (env : Env) (lm : LMState) (protocol light_id : String)
    (state : StateDict) (p2 id2 : String) (h : get_light lm p2 id2 = none) :
    get_light (set_light_state env lm protocol light_id state).2 p2 id2 = none := by
  obtain ⟨hh, hl⟩ := set_light_state_snd_fields env lm protocol light_id state
  unfold get_light at h ⊢
  by_cases hp2 : p2 = "hue"
  · rw [if_pos hp2] at h ⊢
    rcases hh with he | ⟨v, he⟩ <;> rw [he]
    · exact h
    · exact alookup_aset_isNone _ _ _ _ h
  · rw [if_neg hp2] at h ⊢
    by_cases hq2 : p2 = "lifx"
    · rw [if_pos hq2] at h ⊢
      rcases hl with he | ⟨v, he⟩ <;> rw [he]
      · exact h
      · exact alookup_aset_isNone _ _ _ _ h
    · rw [if_neg hq2]

/-- Concrete interpretation of the transcendental oracles for witnesses; no
claim depends on the values. -/
def idRealFns : RealFns := { pow24 := fun q => q, powInv24 := fun q => q }

/-- Environment whose Hue transport always succeeds. -/
def envAllOk : Env := { hue_set_ok := fun _ _ _ _ => true, F := idRealFns }

/-- Empty manager state. -/
def lmEmpty : LMState := {}

/-- A manager state with one Hue bridge and one registered Hue light. -/
def lmFix : LMState :=
  { hue_bridges := [("b1", { ip := some "10.0.0.2", username := some "user1" })],
    hue_lights := [("b1_1", { bridge_id := some "b1", st := { brightness := some 80 } })] }

/-- A group with one registered member and one dangling member. -/
def grpFix : GroupRec := { id := "g1", lights := some [("hue", "b1_1"), ("lifx", "ghost")] }

/-- C6: for every `(protocol, id)` with no registered device, `set_light_state`
returns failure and the whole manager state (all device and bridge registries)
is unchanged. -/
theorem c6_unknown_device_unchanged (env : Env) (lm : LMState) (protocol light_id : String)
    (state : StateDict) (h : get_light lm protocol light_id = none) :
    (set_light_state env lm protocol light_id state).1 = false ∧
    (set_light_state env lm protocol light_id state).2 = lm := by
  rw [set_light_state_unknown env lm protocol light_id state h]
  exact ⟨rfl, rfl⟩

theorem c6_unknown_device_unchanged_witness :
    get_light lmEmpty "hue" "nope" = none ∧
    (set_light_state envAllOk lmEmpty "hue" "nope" { on_ := some true }).1 = false ∧
    (set_light_state envAllOk lmEmpty "hue" "nope" { on_ := some true }).2 = lmEmpty :=
  ⟨rfl, c6_unknown_device_unchanged envAllOk lmEmpty "hue" "nope" { on_ := some true } rfl⟩

/-- C5: `set_group_state` on a two-member group whose first member is
registered with a succeeding protocol write and whose second member is
dangling (no registered device) applies the patch exactly as the single-light
write does, and returns aggregate failure; the embedding is total, so no
exception escapes. -/
theorem c5_group_dangling_member (env : Env) (groups : List GroupRec) (lm : LMState)
    (group_id : String) (g : GroupRec) (p1 id1 p2 id2 : String) (state : StateDict)
    (hg : groups.find? (fun x => x.id = group_id) = some g)
    (hm : g.lights = some [(p1, id1), (p2, id2)])
    (h1 : (set_light_state env lm p1 id1 state).1 = true)
    (h2 : get_light lm p2 id2 = none) :
    set_group_state env groups lm group_id state
      = (false, (set_light_state env lm p1 id1 state).2) := by
  have hpres := get_light_none_preserved env lm p1 id1 state p2 id2 h2
  have hstep2 := set_light_state_unknown env (set_light_state env lm p1 id1 state).2
    p2 id2 state hpres
  unfold set_group_state
  rw [hg]
  dsimp only
  rw [hm]
  dsimp only [List.foldl]
  rw [hstep2, h1]
  rfl

theorem c5_group_dangling_member_witness :
    set_group_state envAllOk [grpFix] lmFix "g1" { on_ := some true }
      = (false, (set_light_state envAllOk lmFix "hue" "b1_1" { on_ := some true }).2) :=
  c5_group_dangling_member envAllOk [grpFix] lmFix "g1" grpFix "hue" "b1_1" "lifx" "ghost"
    { on_ := some true } rfl rfl (by decide) rfl

/-- Saturday 2025-06-07 07:00:00 local time (weekday 5). -/
def satMorning : PyDateTime :=
  { ts := 432000, year := 2025, month := 6, day := 7, hour := 7, minute := 0,
    second := 0, weekday := 5 }

/-- Monday 2025-06-02 07:00:00 local time (weekday 0). -/
def monMorning : PyDateTime :=
  { ts := 0, year := 2025, month := 6, day := 2, hour := 7, minute := 0,
    second := 0, weekday := 0 }

/-- Ten seconds after `monMorning`. -/
def monMorning10 : PyDateTime :=
  { ts := 10, year := 2025, month := 6, day := 2, hour := 7, minute := 0,
    second := 10, weekday := 0 }

/-- C1: any enabled schedule at `07:00` on `weekdays` does not trigger at a
Saturday 07:00 instant; with no prior `last_run` (and no one-shot date) it
triggers at a Monday 07:00 instant, and after the trigger routine stamps
`last_run` a re-evaluation 10 seconds later is debounced. -/
theorem c1_weekdays_trigger_and_debounce (s : Schedule)
    (ht : s.time = some (7, 0)) (hd : s.days = some (.dstr "weekdays"))
    (he : s.enabled = some true) :
    _should_trigger_schedule s satMorning = false ∧
    (s.last_run = none → s.date = none →
      _should_trigger_schedule s monMorning = true ∧
      _should_trigger_schedule (_trigger_set_last_run s monMorning) monMorning10 = false) := by
  obtain ⟨sid, sname, stime, sdays, sdate, sen, slr, sacts⟩ := s
  dsimp only at ht hd he
  subst ht
  subst hd
  subst he
  refine ⟨rfl, ?_⟩
  intro h1 h2
  dsimp only at h1 h2
  subst h1
  subst h2
  exact ⟨rfl, rfl⟩

/-- Schedule used to witness C1. -/
def c1sched : Schedule :=
  { id := "c1", time := some (7, 0), days := some (.dstr "weekdays"), enabled := some true }

theorem c1_weekdays_trigger_and_debounce_witness :
    _should_trigger_schedule c1sched satMorning = false ∧
    (_should_trigger_schedule c1sched monMorning = true ∧
      _should_trigger_schedule (_trigger_set_last_run c1sched monMorning) monMorning10 = false) :=
  ⟨(c1_weekdays_trigger_and_debounce c1sched rfl rfl rfl).1,
    (c1_weekdays_trigger_and_debounce c1sched rfl rfl rfl).2 rfl rfl⟩

/-- C10: a schedule whose dict lacks the `enabled` key entirely evaluates, in
both the trigger predicate and the due-soon predicate, exactly as if
`enabled` were `true`. -/
theorem c10_missing_enabled_defaults_true (s : Schedule) (now : PyDateTime)
    (h : s.enabled = none) :
    _should_trigger_schedule s now
      = _should_trigger_schedule { s with enabled := some true } now ∧
    _should_trigger_soon s now
      = _should_trigger_soon { s with enabled := some true } now := by
  obtain ⟨sid, sname, stime, sdays, sdate, sen, slr, sacts⟩ := s
  dsimp only at h
  subst h
  exact ⟨rfl, rfl⟩

/-- Schedule without an `enabled` key, used to witness C10; it can fire. -/
def c10sched : Schedule := { id := "c10", time := some (7, 0) }

theorem c10_missing_enabled_defaults_true_witness :
    (_should_trigger_schedule c10sched monMorning
        = _should_trigger_schedule { c10sched with enabled := some true } monMorning ∧
      _should_trigger_soon c10sched monMorning
        = _should_trigger_soon { c10sched with enabled := some true } monMorning) ∧
    _should_trigger_schedule c10sched monMorning = true :=
  ⟨c10_missing_enabled_defaults_true c10sched monMorning rfl, rfl⟩

theorem trigger_requires_matches (s : Schedule) (now : PyDateTime)
    (h : _should_trigger_schedule s now = true) :
    (∀ d, s.days = some d → _day_matches d now = true) ∧
    (∀ dt, s.date = some dt → _date_matches dt now = true) := by
  unfold _should_trigger_schedule at h
  constructor
  · intro d hd
    rw [hd] at h
    dsimp only at h
    by_cases hm : _day_matches d now
    · exact hm
    · rw [Bool.not_eq_true] at hm
      rw [hm] at h
      simp at h
  · intro dt hdt
    rw [hdt] at h
    dsimp only at h
    by_cases hm : _date_matches dt now
    · exact hm
    · rw [Bool.not_eq_true] at hm
      rw [hm] at h
      simp at h

/-- Schedule created with BOTH a weekday list and a one-shot date, used for
the C7 counterexample. -/
def c7sched : Schedule :=
  create_schedule_info "c7" "conflict" (7, 0) [] (some (.dlist [5])) (some (2025, 6, 2)) true

/-- C7 counterexample: `create_schedule` accepts both `days` and `date` at
once and stores both; the resulting schedule is then blocked once by the date
constraint (Saturday matches `days=[5]` but not the date) and once by the day
constraint (Monday 2025-06-02 matches the date but not `days=[5]`), so both
constraints drive the same trigger decision. -/
theorem c7_both_days_and_date_cex :
    c7sched.days = some (.dlist [5]) ∧ c7sched.date = some (2025, 6, 2) ∧
    _should_trigger_schedule c7sched satMorning = false ∧
    _should_trigger_schedule c7sched monMorning = false :=
  ⟨rfl, rfl, rfl, rfl⟩

/-- C7 amended: a schedule produced by `create_schedule` carries `days`
whenever a truthy `days` argument was given and `date` whenever a `date` was
given — both at once is possible — and any trigger decision that passes
requires every constraint present on the schedule to match. -/
theorem c7_days_date_conjoined (schedule_id name : String) (time : ℤ × ℤ)
    (actions : List SchedAction) (d : DaysSpec) (dt : ℤ × ℤ × ℤ) (enabled : Bool)
    (now : PyDateTime) (htruthy : days_truthy d = true) :
    (create_schedule_info schedule_id name time actions (some d) (some dt) enabled).days
      = some d ∧
    (create_schedule_info schedule_id name time actions (some d) (some dt) enabled).date
      = some dt ∧
    (_should_trigger_schedule
        (create_schedule_info schedule_id name time actions (some d) (some dt) enabled) now
          = true →
      _day_matches d now = true ∧ _date_matches dt now = true) := by
  unfold create_schedule_info
  dsimp only
  simp only [htruthy, if_true]
  refine ⟨by trivial, by trivial, ?_⟩
  intro htrig
  have hmat := trigger_requires_matches _ now htrig
  exact ⟨hmat.1 d rfl, hmat.2 dt rfl⟩

theorem c7_days_date_conjoined_witness :
    (create_schedule_info "c7w" "n" (7, 0) [] (some (.dlist [0])) (some (2025, 6, 2)) true).days
      = some (.dlist [0]) ∧
    (create_schedule_info "c7w" "n" (7, 0) [] (some (.dlist [0])) (some (2025, 6, 2)) true).date
      = some (2025, 6, 2) ∧
    (_should_trigger_schedule
        (create_schedule_info "c7w" "n" (7, 0) [] (some (.dlist [0])) (some (2025, 6, 2)) true)
        monMorning = true →
      _day_matches (.dlist [0]) monMorning = true ∧
      _date_matches (2025, 6, 2) monMorning = true) :=
  c7_days_date_conjoined "c7w" "n" (7, 0) [] (.dlist [0]) (2025, 6, 2) true monMorning rfl

/-- Persistence adapter that rejects every save, used for C2. -/
def cfgFail : ConfigPort :=
  { add_schedule_ok := fun _ => false, remove_schedule_ok := fun _ => false }

/-- Cached schedule used for C2. -/
def c2sched : Schedule := { id := "s1", time := some (7, 0), enabled := some true }

/-- Schedule cache used for C2. -/
def c2cache : List (String × Schedule) := [("s1", c2sched)]

/-- C2 counterexample: when persistence fails, `update_schedule` reports
failure but the in-memory cache is NOT equal to its prior value — the keyword
arguments were applied to the cached dict before the save was attempted. -/
theorem c2_update_mutates_cache_cex :
    (update_schedule cfgFail c2cache "s1" { enabled := some false }).1 = false ∧
    (update_schedule cfgFail c2cache "s1" { enabled := some false }).2 ≠ c2cache := by
  decide

/-- C2 amended: on a persistence failure `create_schedule` and
`delete_schedule` report failure with the cache unchanged, while
`update_schedule` and `enable_schedule` report failure with the cache already
holding the patched schedule. -/
theorem c2_persistence_failure_semantics (cfg : ConfigPort)
    (cache : List (String × Schedule)) :
    (∀ schedule_id name time actions days date enabled,
      cfg.add_schedule_ok (create_schedule_info schedule_id name time actions days date enabled)
          = false →
      create_schedule cfg cache schedule_id name time actions days date enabled
          = (none, cache)) ∧
    (∀ schedule_id s, alookup cache schedule_id = some s →
      cfg.remove_schedule_ok schedule_id = false →
      delete_schedule cfg cache schedule_id = (false, cache)) ∧
    (∀ schedule_id s p, alookup cache schedule_id = some s →
      cfg.add_schedule_ok (apply_schedule_patch s p) = false →
      update_schedule cfg cache schedule_id p
          = (false, aset cache schedule_id (apply_schedule_patch s p))) ∧
    (∀ schedule_id s enabled, alookup cache schedule_id = some s →
      cfg.add_schedule_ok (apply_schedule_patch s { enabled := some enabled }) = false →
      enable_schedule cfg cache schedule_id enabled
          = (false, aset cache schedule_id (apply_schedule_patch s { enabled := some enabled }))) := by
  refine ⟨?_, ?_, ?_, ?_⟩
  · intro schedule_id name time actions days date enabled hf
    unfold create_schedule
    simp [hf]
  · intro schedule_id s hs hf
    unfold delete_schedule
    rw [hs]
    simp [hf]
  · intro schedule_id s p hs hf
    unfold update_schedule
    rw [hs]
    dsimp only
    simp [hf]
  · intro schedule_id s enabled hs hf
    unfold enable_schedule update_schedule
    rw [hs]
    dsimp only
    simp [hf]

theorem c2_persistence_failure_semantics_witness :
    create_schedule cfgFail c2cache "new" "n" (8, 0) [] none none true = (none, c2cache) ∧
    delete_schedule cfgFail c2cache "s1" = (false, c2cache) ∧
    update_schedule cfgFail c2cache "s1" { enabled := some false }
      = (false, aset c2cache "s1" (apply_schedule_patch c2sched { enabled := some false })) ∧
    enable_schedule cfgFail c2cache "s1" false
      = (false, aset c2cache "s1" (apply_schedule_patch c2sched { enabled := some false })) := by
  have T := c2_persistence_failure_semantics cfgFail c2cache
  exact ⟨T.1 "new" "n" (8, 0) [] none none true rfl,
    T.2.1 "s1" c2sched rfl rfl,
    T.2.2.1 "s1" c2sched { enabled := some false } rfl rfl,
    T.2.2.2 "s1" c2sched false rfl rfl⟩

theorem tdiv_eq_rat_floor (a : ℤ) (b : ℕ) (ha : 0 ≤ a) (hb : 0 < b) :
    Int.tdiv a (b : ℤ) = ⌊(a : ℚ) / ((b : ℕ) : ℚ)⌋ := by
  rw [Rat.floor_intCast_div_natCast]
  exact Int.tdiv_eq_ediv ha (by positivity)

theorem tdiv_natCast (m n : ℕ) : Int.tdiv (m : ℤ) (n : ℤ) = ((m / n : ℕ) : ℤ) := rfl

/-- Modelled from the spec: the claimed conversion `round(bri / 254 * 100)`
(and its dual), rounding half up; on the grids involved no argument is an
exact half, so every Python rounding convention agrees with this one. -/
def spec_round_div (a b : ℤ) : ℤ := (2 * a + b) / (2 * b)

/-- C9 counterexample: for `bri = 4` the source computes
`int((4 / 254) * 100) = 1`, while the claimed rounding gives `2`. -/
theorem c9_truncation_not_round_cex :
    (Hue.normalize_state idRealFns { bri := some 4 }).brightness = some 1 ∧
    spec_round_div (4 * 100) 254 = 2 ∧
    (Hue.normalize_state idRealFns { bri := some 4 }).brightness
      ≠ some (spec_round_div (4 * 100) 254) := by
  decide

/-- C9 amended: on the Hue ranges the brightness conversions truncate (floor)
rather than round: `normalize_state` maps `bri` to `⌊bri * 100 / 254⌋` and
`_convert_to_hue_state` maps a percent to `⌊pct * 254 / 100⌋`. -/
theorem c9_brightness_truncation (F : RealFns) (bri pct : ℤ)
    (hb0 : 0 ≤ bri) (_hb1 : bri ≤ 254) (hp0 : 0 ≤ pct) (_hp1 : pct ≤ 100) :
    (Hue.normalize_state F { bri := some bri }).brightness
        = some ⌊((bri : ℚ) * 100) / 254⌋ ∧
    (Hue.convert_to_hue_state F { brightness := some pct }).bri
        = some ⌊((pct : ℚ) * 254) / 100⌋ := by
  constructor
  · have h1 : (Hue.normalize_state F { bri := some bri }).brightness
        = some (Int.tdiv (bri * 100) 254) := rfl
    rw [h1]
    congr 1
    have h2 := tdiv_eq_rat_floor (bri * 100) 254 (by positivity) (by norm_num)
    rw [show ((254 : ℕ) : ℤ) = (254 : ℤ) by norm_num] at h2
    rw [h2]
    congr 1
    push_cast
    ring
  · have h1 : (Hue.convert_to_hue_state F { brightness := some pct }).bri
        = some (Int.tdiv (pct * 254) 100) := rfl
    rw [h1]
    congr 1
    have h2 := tdiv_eq_rat_floor (pct * 254) 100 (by positivity) (by norm_num)
    rw [show ((100 : ℕ) : ℤ) = (100 : ℤ) by norm_num] at h2
    rw [h2]
    congr 1
    push_cast
    ring

theorem c9_brightness_truncation_witness :
    (Hue.normalize_state idRealFns { bri := some 100 }).brightness
        = some ⌊(((100 : ℤ) : ℚ) * 100) / 254⌋ ∧
    (Hue.convert_to_hue_state idRealFns { brightness := some 50 }).bri
        = some ⌊(((50 : ℤ) : ℚ) * 254) / 100⌋ :=
  c9_brightness_truncation idRealFns 100 50 (by decide) (by decide) (by decide) (by decide)

/-- C4 counterexample: the mirek round trip of 6500 K is 6535 K (the source
truncates both divisions, and mirek quantization near 6500 K is about 42 K),
which is not within plus-or-minus 1. -/
theorem c4_roundtrip_not_within_one_cex :
    (Hue.normalize_state idRealFns
        (Hue.convert_to_hue_state idRealFns { color_temp := some 6500 })).color_temp
      = some 6535 ∧
    ¬(((6535 : ℤ) - 6500).natAbs ≤ 1) := by
  decide

/-- Decidable body of the C4 range check over naturals. -/
def c4_body (n : ℕ) : Bool :=
  decide (n ≤ 1000000 / (1000000 / n)) && decide (1000000 / (1000000 / n) ≤ n + 41)

theorem c4_check : checkRange c4_body 13 2000 4501 = true := by decide

/-- C4 amended: for Kelvin `k` in `[2000, 6500]` the round trip
`normalize_state (_convert_to_hue_state k)` never undershoots and overshoots
by at most 41 K (the bound 41 is attained at `k = 6494`); it is NOT within
plus-or-minus 1. -/
theorem c4_roundtrip_bounds (F : RealFns) (k : ℤ) (h1 : 2000 ≤ k) (h2 : k ≤ 6500) :
    (Hue.normalize_state F (Hue.convert_to_hue_state F { color_temp := some k })).color_temp
      = some (Int.tdiv 1000000 (Int.tdiv 1000000 k)) ∧
    k ≤ Int.tdiv 1000000 (Int.tdiv 1000000 k) ∧
    Int.tdiv 1000000 (Int.tdiv 1000000 k) ≤ k + 41 := by
  have hk0 : (0 : ℤ) < k := by omega
  set n : ℕ := k.toNat with hn
  have hkn : k = (n : ℤ) := by omega
  have hn1 : 2000 ≤ n := by omega
  have hn2 : n ≤ 6500 := by omega
  have hb := checkRange_sound c4_body 13 2000 4501 c4_check (n - 2000) (by omega)
  have heq : 2000 + (n - 2000) = n := by omega
  rw [heq] at hb
  simp only [c4_body, Bool.and_eq_true, decide_eq_true_eq] at hb
  have e1 : Int.tdiv 1000000 k = ((1000000 / n : ℕ) : ℤ) := by
    rw [hkn]
    exact tdiv_natCast 1000000 n
  have e2 : Int.tdiv 1000000 (Int.tdiv 1000000 k)
      = ((1000000 / (1000000 / n) : ℕ) : ℤ) := by
    rw [e1]
    exact tdiv_natCast 1000000 (1000000 / n)
  have hmpos : (0 : ℤ) < Int.tdiv 1000000 k := by
    rw [e1]
    have : 0 < 1000000 / n := Nat.div_pos (by omega) (by omega)
    omega
  refine ⟨?_, ?_, ?_⟩
  · have e_conv : Hue.convert_to_hue_state F { color_temp := some k }
        = { ct := some (Int.tdiv 1000000 k) } := by
      unfold Hue.convert_to_hue_state
      dsimp only
      rw [if_pos hk0]
    rw [e_conv]
    have e_norm : (Hue.normalize_state F { ct := some (Int.tdiv 1000000 k) }).color_temp
        = some (Int.tdiv 1000000 (Int.tdiv 1000000 k)) := by
      unfold Hue.normalize_state
      dsimp only
      rw [if_pos hmpos]
    rw [e_norm]
  · rw [e2, hkn]
    omega
  · rw [e2, hkn]
    omega

theorem c4_roundtrip_bounds_witness :
    (Hue.normalize_state idRealFns
        (Hue.convert_to_hue_state idRealFns { color_temp := some 2000 })).color_temp
      = some (Int.tdiv 1000000 (Int.tdiv 1000000 2000)) ∧
    (2000 : ℤ) ≤ Int.tdiv 1000000 (Int.tdiv 1000000 2000) ∧
    Int.tdiv 1000000 (Int.tdiv 1000000 2000) ≤ 2000 + 41 :=
  c4_roundtrip_bounds idRealFns 2000 (by decide) (by decide)

/-- C3 (evaluation of the code at the failing input): on a registered Hue
light whose transport succeeds, the canonical patch `brightness = 50` returns
success, yet the whole manager state — in particular the stored record's
brightness, still 80 — is unchanged: `normalize_state` reads the Hue-native
key `bri`, which a canonical patch does not contain, so the "normalized echo"
merged into the record is the empty dict. -/
theorem c3_hue_echo_drops_brightness :
    (set_light_state envAllOk lmFix "hue" "b1_1" { brightness := some 50 }).1 = true ∧
    (set_light_state envAllOk lmFix "hue" "b1_1" { brightness := some 50 }).2 = lmFix ∧
    ((get_light (set_light_state envAllOk lmFix "hue" "b1_1" { brightness := some 50 }).2
        "hue" "b1_1").map (fun r => r.st.brightness)) = some (some 80) ∧
    Hue.normalize_state idRealFns { brightness := some 50 } = ({} : StateDict) := by
  decide

theorem lifx_normalize_hs (patch : StateDict) (h s : ℤ)
    (h1 : patch.hue = some h) (h2 : patch.saturation = some s)
    (h3 : patch.rgb_color = none) :
    (Lifx.normalize_state patch).hue = some h ∧
    (Lifx.normalize_state patch).saturation = some s ∧
    (Lifx.normalize_state patch).rgb_color.isSome = true := by
  obtain ⟨o, re, b, c, hu, sa, rg, pb, pc, ps, pxy⟩ := patch
  dsimp only at h1 h2 h3
  subst h1
  subst h2
  subst h3
  unfold Lifx.normalize_state
  cases o <;> cases re <;> cases b <;> cases c <;> exact ⟨rfl, rfl, rfl⟩

theorem lifx_normalize_rgb (patch : StateDict) (rgb : ℤ × ℤ × ℤ)
    (h1 : patch.rgb_color = some rgb) (h2 : patch.hue = none)
    (h3 : patch.saturation = none) :
    (Lifx.normalize_state patch).hue.isSome = true ∧
    (Lifx.normalize_state patch).saturation.isSome = true ∧
    (Lifx.normalize_state patch).rgb_color = none := by
  obtain ⟨o, re, b, c, hu, sa, rg, pb, pc, ps, pxy⟩ := patch
  dsimp only at h1 h2 h3
  subst h1
  subst h2
  subst h3
  unfold Lifx.normalize_state
  cases o <;> cases re <;> cases b <;> cases c <;> exact ⟨rfl, rfl, rfl⟩

theorem lifx_set_stores_both (env : Env) (lm : LMState) (light_id : String)
    (light : LightRec) (patch : StateDict) (h s : ℤ)
    (hl : alookup lm.lifx_lights light_id = some light)
    (hip : light.ip.isSome = true)
    (hn1 : (Lifx.normalize_state patch).hue = some h)
    (hn2 : (Lifx.normalize_state patch).saturation = some s)
    (hn3 : (Lifx.normalize_state patch).rgb_color.isSome = true) :
    (set_light_state env lm "lifx" light_id patch).1 = true ∧
    ∃ rec, alookup (set_light_state env lm "lifx" light_id patch).2.lifx_lights light_id
        = some rec ∧
      rec.st.hue = some h ∧ rec.st.saturation = some s ∧
      rec.st.rgb_color.isSome = true := by
  obtain ⟨ip, hip'⟩ := Option.isSome_iff_exists.mp hip
  have hred : set_light_state env lm "lifx" light_id patch
      = (true, { lm with
          lifx_devices := (Lifx.set_light_state lm.lifx_devices light patch).2,
          lifx_lights := aset lm.lifx_lights light_id
            { light with st := dict_update light.st (Lifx.normalize_state patch) } }) := by
    unfold set_light_state
    rw [if_neg (show ¬("lifx" = "hue") by decide)]
    rw [if_pos rfl]
    rw [hl]
    dsimp only
    unfold Lifx.set_light_state
    rw [hip']
    dsimp only
    rw [if_pos rfl]
  constructor
  · rw [hred]
  · rw [hred]
    dsimp only
    obtain ⟨v, hv⟩ := Option.isSome_iff_exists.mp hn3
    refine ⟨_, alookup_aset_self _ _ _ (by rw [hl]; rfl), ?_, ?_, ?_⟩
    · show updVal (Lifx.normalize_state patch).hue light.st.hue = some h
      rw [hn1]
      rfl
    · show updVal (Lifx.normalize_state patch).saturation light.st.saturation = some s
      rw [hn2]
      rfl
    · show (updVal (Lifx.normalize_state patch).rgb_color light.st.rgb_color).isSome = true
      rw [hv]
      rfl

/-- C8 counterexample: a LIFX patch carrying only `rgb_color` produces a
normalized record with derived `hue` and `saturation` but WITHOUT the
`rgb_color` key — the adapter has no pass-through branch for `rgb_color`, so
the stored record does not receive the supplied RGB representation. -/
theorem c8_rgb_only_drops_rgb_cex :
    (Lifx.normalize_state { rgb_color := some (255, 0, 0) }).rgb_color = none ∧
    (Lifx.normalize_state { rgb_color := some (255, 0, 0) }).hue.isSome = true ∧
    (Lifx.normalize_state { rgb_color := some (255, 0, 0) }).saturation.isSome = true := by
  decide

/-- C8 amended: a LIFX patch with `hue` and `saturation` but no `rgb_color`
normalizes (and, after a successful `set_light_state`, stores) both the
hue/saturation pair and a derived `rgb_color`; in the dual direction a patch
with only `rgb_color` yields derived `hue` and `saturation` but no
`rgb_color` key in the normalized output. -/
theorem c8_lifx_chrominance_derivation (patch1 patch2 : StateDict) (h s : ℤ)
    (rgb : ℤ × ℤ × ℤ) (env : Env) (lm : LMState) (light_id : String) (light : LightRec)
    (h1 : patch1.hue = some h) (h2 : patch1.saturation = some s)
    (h3 : patch1.rgb_color = none)
    (h4 : patch2.rgb_color = some rgb) (h5 : patch2.hue = none)
    (h6 : patch2.saturation = none)
    (hl : alookup lm.lifx_lights light_id = some light)
    (hip : light.ip.isSome = true) :
    ((Lifx.normalize_state patch1).hue = some h ∧
      (Lifx.normalize_state patch1).saturation = some s ∧
      (Lifx.normalize_state patch1).rgb_color.isSome = true) ∧
    ((set_light_state env lm "lifx" light_id patch1).1 = true ∧
      ∃ rec, alookup (set_light_state env lm "lifx" light_id patch1).2.lifx_lights light_id
          = some rec ∧
        rec.st.hue = some h ∧ rec.st.saturation = some s ∧
        rec.st.rgb_color.isSome = true) ∧
    ((Lifx.normalize_state patch2).hue.isSome = true ∧
      (Lifx.normalize_state patch2).saturation.isSome = true ∧
      (Lifx.normalize_state patch2).rgb_color = none) := by
  have L1 := lifx_normalize_hs patch1 h s h1 h2 h3
  exact ⟨L1,
    lifx_set_stores_both env lm light_id light patch1 h s hl hip L1.1 L1.2.1 L1.2.2,
    lifx_normalize_rgb patch2 rgb h4 h5 h6⟩

/-- A manager state with one registered LIFX light, used to witness C8. -/
def lmLifx : LMState := { lifx_lights := [("lx1", { ip := some "192.168.1.5" })] }

theorem c8_lifx_chrominance_derivation_witness :
    ((Lifx.normalize_state { hue := some 120, saturation := some 50 }).hue = some 120 ∧
      (Lifx.normalize_state { hue := some 120, saturation := some 50 }).saturation = some 50 ∧
      (Lifx.normalize_state { hue := some 120, saturation := some 50 }).rgb_color.isSome
        = true) ∧
    ((set_light_state envAllOk lmLifx "lifx" "lx1"
        { hue := some 120, saturation := some 50 }).1 = true ∧
      ∃ rec, alookup (set_light_state envAllOk lmLifx "lifx" "lx1"
            { hue := some 120, saturation := some 50 }).2.lifx_lights "lx1"
          = some rec ∧
        rec.st.hue = some 120 ∧ rec.st.saturation = some 50 ∧
        rec.st.rgb_color.isSome = true) ∧
    ((Lifx.normalize_state { rgb_color := some (128, 64, 32) }).hue.isSome = true ∧
      (Lifx.normalize_state { rgb_color := some (128, 64, 32) }).saturation.isSome = true ∧
      (Lifx.normalize_state { rgb_color := some (128, 64, 32) }).rgb_color = none) :=
  c8_lifx_chrominance_derivation { hue := some 120, saturation := some 50 }
    { rgb_color := some (128, 64, 32) } 120 50 (128, 64, 32) envAllOk lmLifx "lx1"
    { ip := some "192.168.1.5" } rfl rfl rfl rfl rfl rfl rfl rfl
